import Mathlib

/-!
Verification of the Field-Stone network test suite (`network-test-suite.py`)
against its natural-language specification.

Conventions of the shallow embedding:
* Python floats are modelled as rationals (`ℚ`).  The arithmetic performed by
  the program (sums, differences, absolute values, divisions by counts) is
  exact on the inputs it parses, so `ℚ` is faithful.
* `statistics.stdev` returns the square root of the Bessel-corrected sample
  variance.  Since `Real.sqrt` is noncomputable and injective on nonnegative
  arguments, the embedding stores the *square* of the stored value (the sample
  variance) in fields named `mdevSq` / `stdevSq`; every equality or nullness
  statement about the standard deviation is equivalent to the corresponding
  statement about its square.
* A Python value that may be `None` or a float is modelled as `Option ℚ`.
* A raised exception is modelled as `Except.error tag` where `tag` names the
  Python exception class (`"TypeError"`, `"StatisticsError"`) or carries the
  message string the program builds.
* External process execution (`subprocess.check_output`) is modelled by an
  abstract outcome: either the produced output (already split into the
  line-shapes the parser distinguishes) or one of the exception classes the
  program catches.
-/

namespace FieldStone

/-! ## Basic list statistics (mirroring `statistics.mean`, `min`, `max`,
`statistics.stdev` and the jitter loop of `run_latency_jitter_test`) -/

/-- Python `min(xs)` on a nonempty list of floats (the program only calls it
on nonempty lists). -/
def listMin : List ℚ → ℚ
  | [] => 0
  | x :: xs => xs.foldl min x

/-- Python `max(xs)` on a nonempty list of floats. -/
def listMax : List ℚ → ℚ
  | [] => 0
  | x :: xs => xs.foldl max x

/-- `statistics.mean` on a list of floats (defined value for nonempty input). -/
def listMean (xs : List ℚ) : ℚ := xs.sum / (xs.length : ℚ)

/-- The Bessel-corrected sample variance: the square of `statistics.stdev`. -/
def sampleVariance (xs : List ℚ) : ℚ :=
  ((xs.map fun x => (x - listMean xs) ^ 2).sum) / ((xs.length - 1 : ℕ) : ℚ)

/-- `[abs(times[i] - times[i-1]) for i in range(1, len(times))]`
(line 243 of the source). -/
def consecutiveDiffs (ts : List ℚ) : List ℚ :=
  List.zipWith (fun a b => |a - b|) ts.tail ts

/-- The jitter computed at lines 241-244: `0`, overwritten by
`sum(diffs) / len(diffs)` when more than one sample is present. -/
def codeJitter (ts : List ℚ) : ℚ :=
  if 1 < ts.length then (consecutiveDiffs ts).sum / ((consecutiveDiffs ts).length : ℚ)
  else 0

/-! Spec-side definitions, written from the specification's words, to be
compared with the code-side computations above. -/

/-- Modelled from the spec: "jitter = mean(|t[i] - t[i-1]|) for i in 1..n-1". -/
def specJitter (ts : List ℚ) : ℚ :=
  (∑ i ∈ Finset.range (ts.length - 1), |ts.getD (i + 1) 0 - ts.getD i 0|) /
    ((ts.length - 1 : ℕ) : ℚ)

/-- Modelled from the spec: the sample standard deviation with Bessel's
correction, represented by its square (the sample variance)
`(Σ (t[i] - mean)²) / (n - 1)`. -/
def specSampleVariance (ts : List ℚ) : ℚ :=
  (∑ i ∈ Finset.range ts.length,
      (ts.getD i 0 - (∑ j ∈ Finset.range ts.length, ts.getD j 0) / (ts.length : ℚ)) ^ 2) /
    ((ts.length - 1 : ℕ) : ℚ)

/-! ## The latency adapter (`run_latency_jitter_test`, lines 206-276) -/

/-- The dict returned by `run_latency_jitter_test`.  `mdevSq` stores the
square of the `"mdev"` entry (see the module comment). -/
structure LatencyResult where
  min : Option ℚ
  max : Option ℚ
  avg : Option ℚ
  mdevSq : Option ℚ
  jitter : Option ℚ
  packet_loss : String
  samples : ℕ
  error : Option String
deriving Repr, DecidableEq

/-- Lines 239-264: the record built from the parsed round-trip times and the
parsed packet-loss token. -/
def pingStatsRecord (times : List ℚ) (packetLoss : String) : LatencyResult :=
  if times.isEmpty then
    { min := none, max := none, avg := none, mdevSq := none, jitter := none,
      packet_loss := packetLoss, samples := 0, error := none }
  else
    { min := some (listMin times), max := some (listMax times),
      avg := some (listMean times),
      mdevSq := some (if 1 < times.length then sampleVariance times else 0),
      jitter := some (codeJitter times),
      packet_loss := packetLoss, samples := times.length, error := none }

/-- One line of `ping` output, as the parsing loop of lines 221-237
distinguishes them: a line containing `"time="` whose float extraction
succeeds (`timeSample`) or raises and is skipped (`timeMalformed`); a line
containing `"packet loss"` whose token extraction succeeds (`lossToken`) or
raises and is skipped (`lossMalformed`); any other line. -/
inductive PingLine
  | timeSample (t : ℚ)
  | timeMalformed
  | lossToken (s : String)
  | lossMalformed
  | other
deriving Repr, DecidableEq

/-- One step of the parsing loop: times accumulate in order; each successfully
parsed packet-loss line overwrites the packet-loss value. -/
def pingFold : (List ℚ × String) → PingLine → (List ℚ × String)
  | (ts, pl), .timeSample t => (ts ++ [t], pl)
  | (ts, _), .lossToken s => (ts, s)
  | acc, _ => acc

/-- Lines 217-237: `times = []`, `packet_loss = "100%"`, then the loop over
the output lines. -/
def parsePing (lines : List PingLine) : List ℚ × String :=
  lines.foldl pingFold ([], "100%")

/-- The successful-invocation path of `run_latency_jitter_test`: parse the
output lines, then build the statistics record. -/
def latencyFromLines (lines : List PingLine) : LatencyResult :=
  pingStatsRecord (parsePing lines).1 (parsePing lines).2

/-! ## External process outcomes

`subprocess.check_output` either returns the tool's output or raises.  The
exception classes the program distinguishes are `CalledProcessError` (a
subclass of `SubprocessError`, carrying a return code and, when captured, the
process output), `TimeoutExpired` (also a `SubprocessError` subclass),
`FileNotFoundError`, and any other `Exception`.  Each failure carries the
string `str(e)` that the handlers interpolate. -/

inductive ProcFailure
  | calledProcessError (rc : ℤ) (msg : String) (capturedOutput : Option String)
  | timeoutExpired (msg : String)
  | fileNotFound (msg : String)
  | otherExc (msg : String)
deriving Repr, DecidableEq

/-- `str(e)` for a caught exception. -/
def ProcFailure.pyStr : ProcFailure → String
  | .calledProcessError _ m _ => m
  | .timeoutExpired m => m
  | .fileNotFound m => m
  | .otherExc m => m

inductive ProcOutcome (α : Type)
  | output (out : α)
  | fail (f : ProcFailure)
deriving Repr, DecidableEq

/-- The whole-function outcome of `run_latency_jitter_test`: the single
`except Exception` handler at lines 265-276 turns every failure into an
all-null record carrying `"error": str(e)` and `packet_loss = "100%"`. -/
def run_latency_jitter_test (o : ProcOutcome (List PingLine)) : LatencyResult :=
  match o with
  | .output lines => latencyFromLines lines
  | .fail f =>
    { min := none, max := none, avg := none, mdevSq := none, jitter := none,
      packet_loss := "100%", samples := 0, error := some f.pyStr }

/-! ## The throughput adapter (`run_iperf3_test`, lines 278-350) -/

/-- The fields of the iperf3 JSON summary objects that the program reads.
A JSON field that may be missing is an `Option`. -/
structure TcpSum where
  bits_per_second : Option ℚ
deriving Repr, DecidableEq

structure UdpSum where
  bits_per_second : Option ℚ
  jitter_ms : Option ℚ
  lost_packets : Option ℚ
  packets : Option ℚ
  lost_percent : Option ℚ
  retransmits : Option ℚ
deriving Repr, DecidableEq

/-- The output of a successful iperf3 invocation: either JSON that decodes
(with the `end.sum_sent` / `end.sum_received` / `end.sum` objects possibly
missing, in which case `.get` falls back to `{}`), or non-JSON text, in which
case the free-text scan of lines 324-334 yields at most one Mbps number. -/
inductive IperfOutput
  | json (sum_sent sum_received : Option TcpSum) (sum : Option UdpSum)
  | text (scannedMbps : Option ℚ) (raw : String)
deriving Repr, DecidableEq

inductive Protocol
  | tcp
  | udp
deriving Repr, DecidableEq

def Protocol.upper : Protocol → String
  | .tcp => "TCP"
  | .udp => "UDP"

/-- The dict returned by `run_iperf3_test`, one constructor per distinct
shape the function can build. -/
inductive IperfResult
  | tcpRec (bits_per_second : Option ℚ) (retransmits : ℚ) (sender : Bool) (mbps : ℚ)
  | udpRec (bits_per_second jitter_ms lost_packets packets : Option ℚ)
      (lost_percent : ℚ) (sender : Bool) (mbps : ℚ)
  | fallbackRec (protocol : String) (mbps : Option ℚ) (raw : String)
  | errorRec (msg : String) (capturedOutput : Option String)
deriving Repr, DecidableEq

def run_iperf3_test (hasIperf : Bool) (protocol : Protocol) (reverse : Bool)
    (o : ProcOutcome IperfOutput) : IperfResult :=
  if !hasIperf then .errorRec "iperf3 not installed" none
  else
    match o with
    | .output (.json ss sr sum) =>
      match protocol with
      | .tcp =>
        let data := if reverse then sr else ss
        .tcpRec (data.bind (·.bits_per_second))
          ((sum.bind (·.retransmits)).getD 0)
          (!reverse)
          (((data.bind (·.bits_per_second)).getD 0) / 1000000)
      | .udp =>
        .udpRec (sum.bind (·.bits_per_second)) (sum.bind (·.jitter_ms))
          (sum.bind (·.lost_packets)) (sum.bind (·.packets))
          ((sum.bind (·.lost_percent)).getD 0)
          (!reverse)
          (((sum.bind (·.bits_per_second)).getD 0) / 1000000)
    | .output (.text mbps raw) => .fallbackRec protocol.upper mbps raw
    | .fail (.calledProcessError rc _ out) =>
      .errorRec (s!"iperf3 failed with return code {rc}") out
    | .fail (.timeoutExpired _) => .errorRec "Timeout expired" none
    | .fail (.fileNotFound m) => .errorRec m none
    | .fail (.otherExc m) => .errorRec m none

/-! ## The internet-speed adapter (`run_speedtest`, lines 352-425) -/

/-- The two JSON schemas the program normalizes (lines 370-389).  The newer
schema is recognized by `result["download"]` being a dict; it carries
`bandwidth` numbers and a nested `ping` object.  The older schema carries
flat numbers.  Optional `server` metadata defaults to `"Unknown"`. -/
inductive SpeedJson
  | newFmt (downloadBandwidth uploadBandwidth pingLatency : ℚ)
      (pingJitter : Option ℚ) (serverName serverCountry : Option String)
  | oldFmt (download upload ping : ℚ) (serverSponsor serverCountry : Option String)
deriving Repr, DecidableEq

/-- The output of a successful speed-test invocation: decodable JSON in one
of the two schemas, or non-JSON text, in which case the free-text scan of
lines 392-408 yields optional Download/Upload/Ping numbers. -/
inductive SpeedOutput
  | json (j : SpeedJson)
  | text (download upload ping : Option ℚ)
deriving Repr, DecidableEq

/-- The dict returned by `run_speedtest`.  `okNew` has a `jitter_ms` key
(possibly `None`); `okOld` and `fallbackRec` have no `jitter_ms` key. -/
inductive SpeedResult
  | okNew (download_mbps upload_mbps ping_ms : ℚ) (jitter_ms : Option ℚ)
      (server server_country : String)
  | okOld (download_mbps upload_mbps ping_ms : ℚ) (server server_country : String)
  | fallbackRec (download_mbps upload_mbps ping_ms : Option ℚ)
  | errorRec (msg : String)
deriving Repr, DecidableEq

/-- Lines 367-415: normalization of a successful invocation's output. -/
def parseSpeedOutput : SpeedOutput → SpeedResult
  | .json (.newFmt db ub pl pj sn sc) =>
    .okNew (db * 8 / 1000000) (ub * 8 / 1000000) pl pj (sn.getD "Unknown") (sc.getD "Unknown")
  | .json (.oldFmt d u p ss sc) =>
    .okOld (d / 1000000) (u / 1000000) p (ss.getD "Unknown") (sc.getD "Unknown")
  | .text d u p => .fallbackRec d u p

/-- `run_speedtest`: the first invocation (`speedtest-cli --json`) falls back
to the second (`speedtest --format=json`) when it raises a `SubprocessError`
(which includes `CalledProcessError` and `TimeoutExpired`) or
`FileNotFoundError`; any other exception reaches the outer handlers, as does
every failure of the second invocation. -/
def run_speedtest (hasSpeedtest : Bool) (first second : ProcOutcome SpeedOutput) :
    SpeedResult :=
  if !hasSpeedtest then .errorRec "speedtest-cli not installed"
  else
    match first with
    | .output o => parseSpeedOutput o
    | .fail (.otherExc m) => .errorRec m
    | .fail _ =>
      match second with
      | .output o => parseSpeedOutput o
      | .fail (.calledProcessError rc _ _) =>
        .errorRec (s!"Speed test failed with return code {rc}")
      | .fail (.timeoutExpired _) => .errorRec "Timeout expired"
      | .fail (.fileNotFound m) => .errorRec m
      | .fail (.otherExc m) => .errorRec m

/-! ## The local-transfer adapter (`run_local_transfer_test`, lines 427-515) -/

/-- Python's `s.startswith(pre)`, as a character-list prefix test. -/
def pyStartsWith (s pre : String) : Bool :=
  pre.data.isPrefixOf s.data

/-- Lines 427-437, `get_local_network_ip`: the interfaces mapping is iterated
in insertion order; the first IP that is truthy and starts with neither
`"127."` nor `"::1"` is chosen. -/
def get_local_network_ip (interfaces : List (String × Option String)) : Option String :=
  (interfaces.filterMap fun p =>
    match p.2 with
    | none => none
    | some ip =>
      if ip ≠ "" ∧ ¬ pyStartsWith ip "127." ∧ ¬ pyStartsWith ip "::1" then some ip
      else none).head?

structure TransferOk where
  file_size_mb : ℚ
  elapsed_seconds : ℚ
  transfer_speed_mbps : ℚ
  transfer_speed_mbps_curl : Option ℚ
deriving Repr, DecidableEq

inductive TransferResult
  | okRec (r : TransferOk)
  | errorRec (msg : String)
deriving Repr, DecidableEq

/-- `run_local_transfer_test`.  `preExc` models an exception raised before
the download (test-file creation via `dd`/`os.urandom`, or the server start);
`curl` is the outcome of the `curl` download whose output, stripped and
parsed by `float(...)`, is modelled as `Option ℚ` (`none` when that parse
raises); `startT`/`endT` are the two `time.time()` readings.  Every
exception is caught by the `except Exception` handler at lines 505-507 and
becomes an error record; a zero elapsed time makes the Python division raise
`ZeroDivisionError`, likewise caught. -/
def run_local_transfer_test (runLocal : Bool)
    (interfaces : List (String × Option String)) (sizeMb : ℚ)
    (preExc : Option String) (curl : ProcOutcome (Option ℚ))
    (startT endT : ℚ) : TransferResult :=
  if !runLocal then .errorRec "Local test disabled"
  else
    match get_local_network_ip interfaces with
    | none => .errorRec "Could not find local network IP"
    | some _ =>
      match preExc with
      | some m => .errorRec m
      | none =>
        match curl with
        | .fail f => .errorRec f.pyStr
        | .output curlSpeed =>
          let elapsed := endT - startT
          if elapsed = 0 then .errorRec "float division by zero"
          else
            .okRec { file_size_mb := sizeMb, elapsed_seconds := elapsed,
                     transfer_speed_mbps := sizeMb * 8 / elapsed,
                     transfer_speed_mbps_curl := curlSpeed.map fun c => c * 8 / 1000000 }

/-! ## Configuration and per-iteration records -/

/-- The configuration fields that `_save_results` and `_print_summary`
consult. -/
structure Config where
  iperf_server : Option String
  should_run_speedtest : Bool
  run_local_test : Bool
deriving Repr, DecidableEq

/-- Python truthiness of `self.iperf_server` (`if self.iperf_server:`):
`None` and the empty string are falsy. -/
def Config.serverTruthy (c : Config) : Bool :=
  match c.iperf_server with
  | none => false
  | some s => !(s == "")

/-- One entry of `self.results` (lines 543-630): the dict holds a key for an
adapter exactly when that adapter ran in the iteration, so each record field
is an `Option`. -/
structure IterationResult where
  timestamp : String
  iteration : ℕ
  latency_test : Option LatencyResult
  iperf_tcp_upload : Option IperfResult
  iperf_tcp_download : Option IperfResult
  iperf_udp_test : Option IperfResult
  speedtest : Option SpeedResult
  local_transfer : Option TransferResult
deriving Repr, DecidableEq

/-! Key lookups on the record dicts, as `_print_summary` and `_save_results`
perform them.  A lookup such as `"mbps" in d` / `d["mbps"]` is modelled by an
entry function returning `none` when the key is absent and `some v` (with `v`
itself an `Option ℚ`, since the stored value may be `None`) when present. -/

def IperfResult.mbpsEntry : IperfResult → Option (Option ℚ)
  | .tcpRec _ _ _ m => some (some m)
  | .udpRec _ _ _ _ _ _ m => some (some m)
  | .fallbackRec _ m _ => some m
  | .errorRec _ _ => none

def IperfResult.retransmitsEntry : IperfResult → Option ℚ
  | .tcpRec _ r _ _ => some r
  | _ => none

def IperfResult.jitterEntry : IperfResult → Option (Option ℚ)
  | .udpRec _ j _ _ _ _ _ => some j
  | _ => none

def IperfResult.lossEntry : IperfResult → Option ℚ
  | .udpRec _ _ _ _ lp _ _ => some lp
  | _ => none

def SpeedResult.downloadEntry : SpeedResult → Option (Option ℚ)
  | .okNew d _ _ _ _ _ => some (some d)
  | .okOld d _ _ _ _ => some (some d)
  | .fallbackRec d _ _ => some d
  | .errorRec _ => none

def SpeedResult.uploadEntry : SpeedResult → Option (Option ℚ)
  | .okNew _ u _ _ _ _ => some (some u)
  | .okOld _ u _ _ _ => some (some u)
  | .fallbackRec _ u _ => some u
  | .errorRec _ => none

def SpeedResult.pingEntry : SpeedResult → Option (Option ℚ)
  | .okNew _ _ p _ _ _ => some (some p)
  | .okOld _ _ p _ _ => some (some p)
  | .fallbackRec _ _ p => some p
  | .errorRec _ => none

def SpeedResult.jitterEntry : SpeedResult → Option (Option ℚ)
  | .okNew _ _ _ j _ _ => some j
  | _ => none

def TransferResult.speedEntry : TransferResult → Option ℚ
  | .okRec r => some r.transfer_speed_mbps
  | .errorRec _ => none

def TransferResult.elapsedEntry : TransferResult → Option ℚ
  | .okRec r => some r.elapsed_seconds
  | .errorRec _ => none

/-! ## The aggregator (`_print_summary`, lines 744-867) -/

/-- `statistics.mean` applied to a Python list whose elements may be `None`:
an empty list raises `StatisticsError`; a list containing `None` raises
`TypeError`; otherwise the arithmetic mean is returned. -/
def pyMean (xs : List (Option ℚ)) : Except String ℚ :=
  if xs.isEmpty then .error "StatisticsError"
  else if xs.any (·.isNone) then .error "TypeError"
  else .ok (xs.reduceOption.sum / (xs.length : ℚ))

/-- One printed statistics block: mean, min, max, and (when more than one
sample) the standard deviation, stored squared (the sample variance). -/
structure StatBlock where
  mean : ℚ
  min : ℚ
  max : ℚ
  stdevSq : Option ℚ
deriving Repr, DecidableEq

/-- A block over a list of plain floats (latency, jitter, local transfer):
omitted when the list is empty, never raising. -/
def statBlockQ (xs : List ℚ) : Option StatBlock :=
  if xs.isEmpty then none
  else some { mean := listMean xs, min := listMin xs, max := listMax xs,
              stdevSq := if 1 < xs.length then some (sampleVariance xs) else none }

/-- A block over a list of possibly-`None` values (the iperf TCP sections):
omitted when the list is empty; `statistics.mean` raises first when a `None`
is present. -/
def statBlockE (xs : List (Option ℚ)) : Except String (Option StatBlock) :=
  if xs.isEmpty then .ok none
  else (pyMean xs).map fun m =>
    some { mean := m, min := listMin xs.reduceOption, max := listMax xs.reduceOption,
           stdevSq := if 1 < xs.length then some (sampleVariance xs.reduceOption) else none }

structure UdpBlock where
  mean_mbps : ℚ
  mean_jitter : Option ℚ
  mean_loss : Option ℚ
deriving Repr, DecidableEq

structure SpeedBlock where
  mean_download : ℚ
  mean_upload : ℚ
  mean_ping : ℚ
deriving Repr, DecidableEq

/-- Lines 751-759: collect `latency["avg"]` over iterations where it is
present and not `None`. -/
def collectLatencyAvgs (rs : List IterationResult) : List ℚ :=
  rs.filterMap fun r => r.latency_test.bind (·.avg)

def collectLatencyJitters (rs : List IterationResult) : List ℚ :=
  rs.filterMap fun r => r.latency_test.bind (·.jitter)

/-- Lines 780-784 and analogues: collect `d["mbps"]` over iterations where
the key is present (its value may still be `None`). -/
def collectTcpUploadMbps (rs : List IterationResult) : List (Option ℚ) :=
  rs.filterMap fun r => r.iperf_tcp_upload.bind IperfResult.mbpsEntry

def collectTcpDownloadMbps (rs : List IterationResult) : List (Option ℚ) :=
  rs.filterMap fun r => r.iperf_tcp_download.bind IperfResult.mbpsEntry

def collectUdpMbps (rs : List IterationResult) : List (Option ℚ) :=
  rs.filterMap fun r => r.iperf_udp_test.bind IperfResult.mbpsEntry

def collectUdpJitters (rs : List IterationResult) : List (Option ℚ) :=
  rs.filterMap fun r => r.iperf_udp_test.bind IperfResult.jitterEntry

def collectUdpLosses (rs : List IterationResult) : List ℚ :=
  rs.filterMap fun r => r.iperf_udp_test.bind IperfResult.lossEntry

def collectDownloadMbps (rs : List IterationResult) : List (Option ℚ) :=
  rs.filterMap fun r => r.speedtest.bind SpeedResult.downloadEntry

def collectUploadMbps (rs : List IterationResult) : List (Option ℚ) :=
  rs.filterMap fun r => r.speedtest.bind SpeedResult.uploadEntry

def collectPings (rs : List IterationResult) : List (Option ℚ) :=
  rs.filterMap fun r => r.speedtest.bind SpeedResult.pingEntry

def collectTransferSpeeds (rs : List IterationResult) : List ℚ :=
  rs.filterMap fun r => r.local_transfer.bind TransferResult.speedEntry

/-- Lines 809-829: the UDP block (jitter and loss means are printed only
inside the nonempty-speeds branch). -/
def udpSection (rs : List IterationResult) : Except String (Option UdpBlock) :=
  let speeds := collectUdpMbps rs
  if speeds.isEmpty then .ok none
  else do
    let m ← pyMean speeds
    let j ←
      if (collectUdpJitters rs).isEmpty then pure none
      else (pyMean (collectUdpJitters rs)).map some
    let l :=
      if (collectUdpLosses rs).isEmpty then none
      else some (listMean (collectUdpLosses rs))
    .ok (some { mean_mbps := m, mean_jitter := j, mean_loss := l })

/-- Lines 832-850: the internet-speed block.  The three means are computed
(printed) as soon as `download_speeds` is nonempty. -/
def speedtestSection (rs : List IterationResult) : Except String (Option SpeedBlock) :=
  if (collectDownloadMbps rs).isEmpty then .ok none
  else do
    let d ← pyMean (collectDownloadMbps rs)
    let u ← pyMean (collectUploadMbps rs)
    let p ← pyMean (collectPings rs)
    .ok (some { mean_download := d, mean_upload := u, mean_ping := p })

/-- The value of the whole summary: which blocks were printed, with their
statistics. -/
structure SummaryModel where
  latency : Option StatBlock
  jitter : Option StatBlock
  tcpUpload : Option StatBlock
  tcpDownload : Option StatBlock
  udp : Option UdpBlock
  speed : Option SpeedBlock
  localTransfer : Option StatBlock
deriving Repr, DecidableEq

/-- `_print_summary` (lines 744-867), as the computation of the printed
statistics; `Except.error` models an exception escaping the method. -/
def printSummaryStats (c : Config) (rs : List IterationResult) :
    Except String SummaryModel := do
  let lat := statBlockQ (collectLatencyAvgs rs)
  let jit := statBlockQ (collectLatencyJitters rs)
  let (tu, td, ud) ←
    if c.serverTruthy then do
      let tu ← statBlockE (collectTcpUploadMbps rs)
      let td ← statBlockE (collectTcpDownloadMbps rs)
      let ud ← udpSection rs
      pure (tu, td, ud)
    else pure (none, none, none)
  let sp ← if c.should_run_speedtest then speedtestSection rs else pure none
  let lt := if c.run_local_test then statBlockQ (collectTransferSpeeds rs) else none
  pure { latency := lat, jitter := jit, tcpUpload := tu, tcpDownload := td,
         udp := ud, speed := sp, localTransfer := lt }

/-! ## The tabular output (`_save_results`, lines 661-738) -/

/-- A CSV cell value: a number, a string, or (for `None`) nothing. -/
inductive PyScalar
  | num (q : ℚ)
  | str (s : String)
deriving Repr, DecidableEq

def latencyCols : List String :=
  ["latency_min_ms", "latency_avg_ms", "latency_max_ms", "jitter_ms", "packet_loss"]

def iperfCols : List String :=
  ["tcp_upload_mbps", "tcp_download_mbps", "tcp_upload_retransmits",
   "tcp_download_retransmits", "udp_mbps", "udp_jitter_ms", "udp_loss_percent"]

def speedtestCols : List String :=
  ["internet_download_mbps", "internet_upload_mbps", "internet_ping_ms",
   "internet_jitter_ms"]

def localCols : List String :=
  ["local_transfer_mbps", "local_transfer_time_s"]

/-- Lines 663-690: the CSV header row, built from the configuration alone. -/
def csvFieldnames (c : Config) : List String :=
  ["timestamp", "iteration"] ++ latencyCols ++
    (if c.serverTruthy then iperfCols else []) ++
    (if c.should_run_speedtest then speedtestCols else []) ++
    (if c.run_local_test then localCols else [])

/-- Flattening of an `Option (Option ℚ)` entry the way `d.get(k)` does:
absent key and `None` value both print as an empty cell. -/
def flatEntry (e : Option (Option ℚ)) : Option PyScalar :=
  (e.bind id).map .num

/-- Lines 696-737: one CSV data row. -/
def csvRow (c : Config) (r : IterationResult) : List (String × Option PyScalar) :=
  [("timestamp", some (.str r.timestamp)), ("iteration", some (.num r.iteration))] ++
  [("latency_min_ms", ((r.latency_test.bind (·.min)).map .num)),
   ("latency_avg_ms", ((r.latency_test.bind (·.avg)).map .num)),
   ("latency_max_ms", ((r.latency_test.bind (·.max)).map .num)),
   ("jitter_ms", ((r.latency_test.bind (·.jitter)).map .num)),
   ("packet_loss", (r.latency_test.map fun l => .str l.packet_loss))] ++
  (if c.serverTruthy then
    [("tcp_upload_mbps", flatEntry (r.iperf_tcp_upload.bind IperfResult.mbpsEntry)),
     ("tcp_upload_retransmits",
       ((r.iperf_tcp_upload.bind IperfResult.retransmitsEntry).map .num)),
     ("tcp_download_mbps", flatEntry (r.iperf_tcp_download.bind IperfResult.mbpsEntry)),
     ("tcp_download_retransmits",
       ((r.iperf_tcp_download.bind IperfResult.retransmitsEntry).map .num)),
     ("udp_mbps", flatEntry (r.iperf_udp_test.bind IperfResult.mbpsEntry)),
     ("udp_jitter_ms", flatEntry (r.iperf_udp_test.bind IperfResult.jitterEntry)),
     ("udp_loss_percent", ((r.iperf_udp_test.bind IperfResult.lossEntry).map .num))]
   else []) ++
  (if c.should_run_speedtest then
    [("internet_download_mbps", flatEntry (r.speedtest.bind SpeedResult.downloadEntry)),
     ("internet_upload_mbps", flatEntry (r.speedtest.bind SpeedResult.uploadEntry)),
     ("internet_ping_ms", flatEntry (r.speedtest.bind SpeedResult.pingEntry)),
     ("internet_jitter_ms", flatEntry (r.speedtest.bind SpeedResult.jitterEntry))]
   else []) ++
  (if c.run_local_test then
    [("local_transfer_mbps", ((r.local_transfer.bind TransferResult.speedEntry).map .num)),
     ("local_transfer_time_s",
       ((r.local_transfer.bind TransferResult.elapsedEntry).map .num))]
   else [])

/-- The tabular file: header plus one row per iteration. -/
def saveCsvTable (c : Config) (rs : List IterationResult) :
    List String × List (List (String × Option PyScalar)) :=
  (csvFieldnames c, rs.map (csvRow c))

/-! ## The structured raw-results file (`_save_results`, lines 649-658)

`json.dump` writes the dict
`{"system_info": ..., "results": self.results, "timestamp": ...}` and a later
`json.load` of the file reconstructs it.  The values involved are exactly the
JSON data model (`None`, booleans, numbers, strings, lists, string-keyed
dicts) — every per-iteration record is such a dict, error records included.
The textual layer is modelled at token granularity: `serializeJ` emits the
token stream `json.dump` would produce and `parseJVal` consumes it the way
`json.load` does. -/

inductive JValue
  | null
  | bool (b : Bool)
  | num (q : ℚ)
  | str (s : String)
  | arr (items : List JValue)
  | obj (fields : List (String × JValue))
deriving Repr

inductive JTok
  | lbrace
  | rbrace
  | lbrack
  | rbrack
  | colon
  | comma
  | jnull
  | jbool (b : Bool)
  | jnum (q : ℚ)
  | jstr (s : String)
deriving Repr, DecidableEq

mutual

/-- The token stream of the serialized value. -/
def serializeJ : JValue → List JTok
  | .null => [.jnull]
  | .bool b => [.jbool b]
  | .num q => [.jnum q]
  | .str s => [.jstr s]
  | .arr items => JTok.lbrack :: serializeItems items ++ [JTok.rbrack]
  | .obj fields => JTok.lbrace :: serializeFields fields ++ [JTok.rbrace]

def serializeItems : List JValue → List JTok
  | [] => []
  | [v] => serializeJ v
  | v :: vs => serializeJ v ++ JTok.comma :: serializeItems vs

def serializeFields : List (String × JValue) → List JTok
  | [] => []
  | [(k, v)] => JTok.jstr k :: JTok.colon :: serializeJ v
  | (k, v) :: fs => JTok.jstr k :: JTok.colon :: serializeJ v ++ JTok.comma :: serializeFields fs

end

mutual

/-- A size measure used as parser fuel. -/
def jsize : JValue → ℕ
  | .null | .bool _ | .num _ | .str _ => 1
  | .arr items => jsizeItems items + 1
  | .obj fields => jsizeFields fields + 1

def jsizeItems : List JValue → ℕ
  | [] => 1
  | v :: vs => jsize v + jsizeItems vs + 1

def jsizeFields : List (String × JValue) → ℕ
  | [] => 1
  | (_, v) :: fs => jsize v + jsizeFields fs + 1

end

mutual

/-- The deserializer over the token stream, fuelled; returns the parsed value
and the remaining tokens. -/
def parseJVal : ℕ → List JTok → Option (JValue × List JTok)
  | 0, _ => none
  | _ + 1, [] => none
  | fuel + 1, t :: ts =>
    match t with
    | .jnull => some (.null, ts)
    | .jbool b => some (.bool b, ts)
    | .jnum q => some (.num q, ts)
    | .jstr s => some (.str s, ts)
    | .lbrack =>
      match ts with
      | .rbrack :: rest => some (.arr [], rest)
      | _ =>
        match parseJItems fuel ts with
        | some (items, .rbrack :: rest) => some (.arr items, rest)
        | _ => none
    | .lbrace =>
      match ts with
      | .rbrace :: rest => some (.obj [], rest)
      | _ =>
        match parseJFields fuel ts with
        | some (fields, .rbrace :: rest) => some (.obj fields, rest)
        | _ => none
    | _ => none

/-- Comma-separated values. -/
def parseJItems : ℕ → List JTok → Option (List JValue × List JTok)
  | 0, _ => none
  | fuel + 1, ts =>
    match parseJVal fuel ts with
    | none => none
    | some (v, rest) =>
      match rest with
      | .comma :: rest2 =>
        match parseJItems fuel rest2 with
        | none => none
        | some (vs, rest3) => some (v :: vs, rest3)
      | _ => some ([v], rest)

/-- Comma-separated `"key": value` pairs. -/
def parseJFields : ℕ → List JTok → Option (List (String × JValue) × List JTok)
  | 0, _ => none
  | fuel + 1, ts =>
    match ts with
    | .jstr k :: .colon :: ts2 =>
      match parseJVal fuel ts2 with
      | none => none
      | some (v, rest) =>
        match rest with
        | .comma :: rest2 =>
          match parseJFields fuel rest2 with
          | none => none
          | some (fs, rest3) => some ((k, v) :: fs, rest3)
        | _ => some ([(k, v)], rest)
    | _ => none

end

/-- The top-level dict written at lines 652-656:
`{"system_info": ..., "results": [...], "timestamp": ...}`, where each
element of `results` is one per-iteration record dict. -/
def saveJsonDoc (systemInfo : JValue) (results : List JValue) (ts : String) : JValue :=
  .obj [("system_info", systemInfo), ("results", .arr results), ("timestamp", .str ts)]

/-- The first token `serializeJ` emits for a value. -/
def headTokOf : JValue → JTok
  | .null => .jnull
  | .bool b => .jbool b
  | .num q => .jnum q
  | .str s => .jstr s
  | .arr _ => .lbrack
  | .obj _ => .lbrace

/-- Whether a ping output line is a successfully parsed packet-loss line. -/
def PingLine.isLossToken : PingLine → Bool
  | .lossToken _ => true
  | _ => false

/-- The message of the error record `run_iperf3_test` builds for each failure
of the external process. -/
def iperfFailMsg : ProcFailure → String
  | .calledProcessError rc _ _ => s!"iperf3 failed with return code {rc}"
  | .timeoutExpired _ => "Timeout expired"
  | .fileNotFound m => m
  | .otherExc m => m

/-- The captured output attached to that error record. -/
def iperfFailOut : ProcFailure → Option String
  | .calledProcessError _ _ out => out
  | _ => none

/-- The message of the error record `run_speedtest` builds when both
invocations fail (the first failure decides whether the second runs). -/
def speedFailMsg (f g : ProcFailure) : String :=
  match f with
  | .otherExc m => m
  | _ =>
    match g with
    | .calledProcessError rc _ _ => s!"Speed test failed with return code {rc}"
    | .timeoutExpired _ => "Timeout expired"
    | .fileNotFound m => m
    | .otherExc m => m

/-- Modelled from the spec: conversion of a bytes-per-second quantity to
megabits per second. -/
def mbpsOfBytesPerSec (b : ℚ) : ℚ := b * 8 / 1000000

/-- Modelled from the spec: conversion of a bits-per-second quantity to
megabits per second. -/
def mbpsOfBitsPerSec (b : ℚ) : ℚ := b / 1000000

/-- A concrete iteration in which the speed test fell back to free-text
parsing that found nothing: its record is
`{"download_mbps": None, "upload_mbps": None, "ping_ms": None, ...}`. -/
def badSpeedIter : IterationResult :=
  { timestamp := "2026-01-02 10:00:00", iteration := 2,
    latency_test := some (run_latency_jitter_test (.fail (.timeoutExpired "timed out"))),
    iperf_tcp_upload := none, iperf_tcp_download := none, iperf_udp_test := none,
    speedtest := some (.fallbackRec none none none),
    local_transfer := some (.errorRec "Could not find local network IP") }

/-- A concrete iteration in which every enabled adapter succeeded. -/
def okSpeedIter : IterationResult :=
  { timestamp := "2026-01-02 09:58:00", iteration := 1,
    latency_test := some (latencyFromLines [.timeSample 20, .timeSample 22, .lossToken "0%"]),
    iperf_tcp_upload := none, iperf_tcp_download := none, iperf_udp_test := none,
    speedtest := some (.okOld 50 10 20 "S" "C"),
    local_transfer := some (.okRec { file_size_mb := 100, elapsed_seconds := 8,
                                     transfer_speed_mbps := 100,
                                     transfer_speed_mbps_curl := none }) }

/-! # Theorems -/

/-! ## Helper lemmas about list statistics -/

theorem list_map_sum_getD (f : ℚ → ℚ) (ts : List ℚ) :
    (ts.map f).sum = ∑ i ∈ Finset.range ts.length, f (ts.getD i 0) := by
  induction ts with
  | nil => simp
  | cons x xs ih =>
    rw [List.map_cons, List.sum_cons, ih, List.length_cons, Finset.sum_range_succ']
    simp [List.getD]
    ring

theorem list_sum_getD (ts : List ℚ) :
    ts.sum = ∑ i ∈ Finset.range ts.length, ts.getD i 0 := by
  have h := list_map_sum_getD id ts
  simpa using h

theorem consecutiveDiffs_length (ts : List ℚ) :
    (consecutiveDiffs ts).length = ts.length - 1 := by
  simp [consecutiveDiffs]

theorem consecutiveDiffs_sum (ts : List ℚ) :
    (consecutiveDiffs ts).sum =
      ∑ i ∈ Finset.range (ts.length - 1), |ts.getD (i + 1) 0 - ts.getD i 0| := by
  induction ts with
  | nil => simp [consecutiveDiffs]
  | cons x xs ih =>
    cases xs with
    | nil => simp [consecutiveDiffs]
    | cons y rest =>
      have hstep : consecutiveDiffs (x :: y :: rest) =
          |y - x| :: consecutiveDiffs (y :: rest) := by
        simp [consecutiveDiffs]
      rw [hstep, List.sum_cons, ih]
      have hlen : (x :: y :: rest).length - 1 = ((y :: rest).length - 1) + 1 := by
        simp
      rw [hlen, Finset.sum_range_succ']
      simp [List.getD, abs_sub_comm]
      ring

theorem sampleVariance_eq_spec (ts : List ℚ) :
    sampleVariance ts = specSampleVariance ts := by
  unfold sampleVariance specSampleVariance
  rw [list_map_sum_getD, listMean, list_sum_getD]

/-- C2: for every parsed round-trip-time sample sequence with at least 2
values, the latency record's jitter field equals the mean of
`|t[i] - t[i-1]|` over consecutive pairs (`i` from 1 to `n-1`); for a
sequence with exactly one sample, jitter equals 0. -/
theorem c2_jitter_mean_consecutive_diffs (ts : List ℚ) (pl : String) :
    (2 ≤ ts.length → (pingStatsRecord ts pl).jitter = some (specJitter ts)) ∧
    (ts.length = 1 → (pingStatsRecord ts pl).jitter = some 0) := by
  constructor
  · intro h2
    have hne : ¬ ts.isEmpty := by
      cases ts with
      | nil => simp at h2
      | cons x xs => simp
    have hj : codeJitter ts = specJitter ts := by
      unfold codeJitter specJitter
      rw [if_pos (by omega), consecutiveDiffs_sum, consecutiveDiffs_length]
    rw [pingStatsRecord, if_neg hne]
    simpa using hj
  · intro h1
    have hne : ¬ ts.isEmpty := by
      cases ts with
      | nil => simp at h1
      | cons x xs => simp
    have hj : codeJitter ts = 0 := by
      unfold codeJitter
      rw [if_neg (by omega)]
    rw [pingStatsRecord, if_neg hne]
    simpa using hj

theorem c2_jitter_witness :
    (pingStatsRecord [3, 5, 9] "0%").jitter = some 3 ∧
    (pingStatsRecord [7] "0%").jitter = some 0 := by
  constructor
  · rw [(c2_jitter_mean_consecutive_diffs [3, 5, 9] "0%").1 (by norm_num)]
    norm_num [specJitter, Finset.sum_range_succ, List.getD]
  · exact (c2_jitter_mean_consecutive_diffs [7] "0%").2 rfl

/-- C3 counterexample: with zero parsed samples the standard-deviation field
of the latency record is `None`, not `0` (the source stores `"mdev": None` on
the empty branch at lines 255-264); the claim's "zero ... samples ⇒ stddev
= 0" is therefore false at the empty sample sequence. -/
theorem c3_counterexample_empty_samples :
    (pingStatsRecord [] "100%").mdevSq ≠ some 0 := by
  decide

/-- C3 amended: for exactly one sample the standard-deviation field is 0 and
for zero samples it is null (and the computation never raises); with 2 or
more samples it equals the sample standard deviation with Bessel's
correction (stated on the stored square, the sample variance). -/
theorem c3_stddev_amended (ts : List ℚ) (pl : String) :
    (ts.length = 1 → (pingStatsRecord ts pl).mdevSq = some 0) ∧
    (ts = [] → (pingStatsRecord ts pl).mdevSq = none) ∧
    (2 ≤ ts.length → (pingStatsRecord ts pl).mdevSq = some (specSampleVariance ts)) := by
  refine ⟨?_, ?_, ?_⟩
  · intro h1
    have hne : ¬ ts.isEmpty := by
      cases ts with
      | nil => simp at h1
      | cons x xs => simp
    rw [pingStatsRecord, if_neg hne]
    simp [if_neg (by omega : ¬ 1 < ts.length)]
  · intro h
    subst h
    rfl
  · intro h2
    have hne : ¬ ts.isEmpty := by
      cases ts with
      | nil => simp at h2
      | cons x xs => simp
    rw [pingStatsRecord, if_neg hne]
    simp [if_pos (by omega : 1 < ts.length), sampleVariance_eq_spec]

/-- C1: the aggregation is NOT robust to absent metrics.  When an internet
speed test falls back to free-text parsing and finds no numbers, its record
is `{"download_mbps": None, ...}`; `_print_summary` collects values by key
presence (`"download_mbps" in speed_test`, lines 839-844) rather than by
non-`None` value, so `statistics.mean` is applied to a list containing
`None` and raises `TypeError` — both when every iteration's metric datum is
absent and when present and absent values are mixed.  This contradicts the
spec's invariant that an absent metric never prevents statistics from being
computed and that an all-absent metric yields "no data" rather than an
error. -/
theorem c1_aggregation_raises_on_absent_metric :
    printSummaryStats
        { iperf_server := none, should_run_speedtest := true, run_local_test := true }
        [badSpeedIter] = .error "TypeError" ∧
    printSummaryStats
        { iperf_server := none, should_run_speedtest := true, run_local_test := true }
        [okSpeedIter, badSpeedIter] = .error "TypeError" :=
  ⟨rfl, rfl⟩

theorem parsePing_snd_of_no_loss (lines : List PingLine)
    (h : lines.all (fun l => !l.isLossToken) = true) :
    (parsePing lines).2 = "100%" := by
  suffices hgen : ∀ acc : List ℚ × String, (lines.foldl pingFold acc).2 = acc.2 by
    exact hgen ([], "100%")
  induction lines with
  | nil => intro acc; rfl
  | cons l ls ih =>
    intro acc
    simp only [List.all_cons, Bool.and_eq_true] at h
    have hstep : (pingFold acc l).2 = acc.2 := by
      cases l with
      | lossToken s => simp [PingLine.isLossToken] at h
      | timeSample t => rfl
      | timeMalformed => rfl
      | lossMalformed => rfl
      | other => rfl
    rw [List.foldl_cons, ih h.2, hstep]

/-- C4: for every latency invocation whose output yields zero parsed
round-trip-time samples, the returned record has all numeric fields (min,
max, avg, stddev, jitter) null and `samples = 0`, and `packet_loss` defaults
to `"100%"` when no packet-loss line was parsed. -/
theorem c4_zero_samples_all_null (lines : List PingLine)
    (h : (parsePing lines).1 = []) :
    (latencyFromLines lines).min = none ∧ (latencyFromLines lines).max = none ∧
    (latencyFromLines lines).avg = none ∧ (latencyFromLines lines).mdevSq = none ∧
    (latencyFromLines lines).jitter = none ∧ (latencyFromLines lines).samples = 0 ∧
    (lines.all (fun l => !l.isLossToken) = true →
      (latencyFromLines lines).packet_loss = "100%") := by
  unfold latencyFromLines
  rw [h]
  refine ⟨rfl, rfl, rfl, rfl, rfl, rfl, ?_⟩
  intro hno
  show (pingStatsRecord [] (parsePing lines).2).packet_loss = "100%"
  rw [parsePing_snd_of_no_loss lines hno]
  rfl

theorem c4_zero_samples_witness :
    (latencyFromLines [.timeMalformed, .other]).min = none ∧
    (latencyFromLines [.timeMalformed, .other]).max = none ∧
    (latencyFromLines [.timeMalformed, .other]).avg = none ∧
    (latencyFromLines [.timeMalformed, .other]).mdevSq = none ∧
    (latencyFromLines [.timeMalformed, .other]).jitter = none ∧
    (latencyFromLines [.timeMalformed, .other]).samples = 0 ∧
    (latencyFromLines [.timeMalformed, .other]).packet_loss = "100%" :=
  have h := c4_zero_samples_all_null [.timeMalformed, .other] rfl
  ⟨h.1, h.2.1, h.2.2.1, h.2.2.2.1, h.2.2.2.2.1, h.2.2.2.2.2.1, h.2.2.2.2.2.2 rfl⟩

/-- C10: for every latency invocation whose output yields at least one
parsed round-trip-time sample but contains no recognizable packet-loss line,
the returned record reports `packet_loss = "100%"` alongside the numeric
statistics computed from the samples. -/
theorem c10_samples_without_loss_line (lines : List PingLine)
    (h : (parsePing lines).1 ≠ [])
    (hno : lines.all (fun l => !l.isLossToken) = true) :
    (latencyFromLines lines).packet_loss = "100%" ∧
    (latencyFromLines lines).min = some (listMin (parsePing lines).1) ∧
    (latencyFromLines lines).max = some (listMax (parsePing lines).1) ∧
    (latencyFromLines lines).avg = some (listMean (parsePing lines).1) ∧
    (latencyFromLines lines).mdevSq =
      some (if 1 < (parsePing lines).1.length then sampleVariance (parsePing lines).1 else 0) ∧
    (latencyFromLines lines).jitter = some (codeJitter (parsePing lines).1) ∧
    (latencyFromLines lines).samples = (parsePing lines).1.length := by
  have hne : ¬ (parsePing lines).1.isEmpty := by
    simpa [List.isEmpty_iff] using h
  unfold latencyFromLines
  rw [pingStatsRecord, if_neg hne]
  exact ⟨parsePing_snd_of_no_loss lines hno, rfl, rfl, rfl, rfl, rfl, rfl⟩

theorem c10_samples_without_loss_line_witness :
    (latencyFromLines [.timeSample 10, .timeSample 12, .other]).packet_loss = "100%" ∧
    (latencyFromLines [.timeSample 10, .timeSample 12, .other]).min = some 10 ∧
    (latencyFromLines [.timeSample 10, .timeSample 12, .other]).max = some 12 ∧
    (latencyFromLines [.timeSample 10, .timeSample 12, .other]).avg = some 11 ∧
    (latencyFromLines [.timeSample 10, .timeSample 12, .other]).mdevSq = some 2 ∧
    (latencyFromLines [.timeSample 10, .timeSample 12, .other]).jitter = some 2 ∧
    (latencyFromLines [.timeSample 10, .timeSample 12, .other]).samples = 2 := by
  have h := c10_samples_without_loss_line [.timeSample 10, .timeSample 12, .other]
    (by decide) rfl
  have hp : (parsePing [.timeSample 10, .timeSample 12, .other]).1 = [10, 12] := rfl
  refine ⟨h.1, ?_, ?_, ?_, ?_, ?_, h.2.2.2.2.2.2⟩
  · rw [h.2.1, hp]; norm_num [listMin, min_def]
  · rw [h.2.2.1, hp]; norm_num [listMax, max_def]
  · rw [h.2.2.2.1, hp]; norm_num [listMean]
  · rw [h.2.2.2.2.1, hp]; norm_num [sampleVariance, listMean]
  · rw [h.2.2.2.2.2.1, hp]; norm_num [codeJitter, consecutiveDiffs]

/-- C5: every failure of the underlying external process — timeout, non-zero
exit (`CalledProcessError`), or any other exception — is turned into an
error record carrying the cause by each of the four adapters, and never
escapes the adapter (the adapters are total functions of the outcome).  The
latency adapter's error record carries `"error": str(e)`; the iperf and
speed-test adapters build the messages of `iperfFailMsg` / `speedFailMsg`;
the local-transfer adapter returns `{"error": str(e)}`. -/
theorem c5_adapters_never_raise (f g : ProcFailure) (proto : Protocol) (rev : Bool) :
    (run_latency_jitter_test (.fail f)).error = some f.pyStr ∧
    run_iperf3_test true proto rev (.fail f) = .errorRec (iperfFailMsg f) (iperfFailOut f) ∧
    run_speedtest true (.fail f) (.fail g) = .errorRec (speedFailMsg f g) ∧
    run_local_transfer_test true [("eth0", some "192.168.1.10")] 100 none (.fail f) 0 1 =
      .errorRec f.pyStr ∧
    run_local_transfer_test true [("eth0", some "192.168.1.10")] 100 (some f.pyStr)
        (.output none) 0 1 = .errorRec f.pyStr := by
  have hip : get_local_network_ip [("eth0", some "192.168.1.10")] = some "192.168.1.10" := by
    decide
  refine ⟨rfl, ?_, ?_, ?_, ?_⟩
  · cases f <;> rfl
  · cases f <;> cases g <;> rfl
  · show run_local_transfer_test true [("eth0", some "192.168.1.10")] 100 none (.fail f) 0 1 =
      .errorRec f.pyStr
    unfold run_local_transfer_test
    rw [hip]
    rfl
  · unfold run_local_transfer_test
    rw [hip]
    rfl

/-- C6: the CSV column set is a function only of the enabled features: the
header equals `csvFieldnames c` whatever the results are, and each
throughput / internet-speed / local-transfer column is present in the header
exactly when the corresponding feature was enabled (a bandwidth-test server
given, the speed test not disabled, the local test not disabled) —
independent of the per-iteration records. -/
theorem c6_csv_columns_only_from_config (c : Config) (rs rs' : List IterationResult) :
    (saveCsvTable c rs).1 = csvFieldnames c ∧
    (saveCsvTable c rs).1 = (saveCsvTable c rs').1 ∧
    iperfCols.all (fun col => (csvFieldnames c).contains col) = c.serverTruthy ∧
    iperfCols.any (fun col => (csvFieldnames c).contains col) = c.serverTruthy ∧
    speedtestCols.all (fun col => (csvFieldnames c).contains col) = c.should_run_speedtest ∧
    speedtestCols.any (fun col => (csvFieldnames c).contains col) = c.should_run_speedtest ∧
    localCols.all (fun col => (csvFieldnames c).contains col) = c.run_local_test ∧
    localCols.any (fun col => (csvFieldnames c).contains col) = c.run_local_test := by
  refine ⟨rfl, rfl, ?_, ?_, ?_, ?_, ?_, ?_⟩ <;>
    cases h1 : c.serverTruthy <;> cases h2 : c.should_run_speedtest <;>
      cases h3 : c.run_local_test <;>
        simp only [csvFieldnames, h1, h2, h3, if_true, if_false] <;> decide

/-- C7 counterexample: the claim's premise is that the older schema's
top-level bandwidth fields are in bytes/sec.  On such a value the adapter
does not return megabits per second: for a download field of 1000000
(bytes/sec, i.e. 8 Mbps) the old-format path divides by 10^6 without the
factor 8 and returns 1, while the bytes/sec→Mbps conversion gives 8. -/
theorem c7_counterexample_old_schema_units :
    parseSpeedOutput (.json (.oldFmt 1000000 1000000 20 none none)) =
      .okOld 1 1 20 "Unknown" "Unknown" ∧
    mbpsOfBytesPerSec 1000000 = 8 ∧ (1 : ℚ) ≠ 8 := by
  refine ⟨?_, by norm_num [mbpsOfBytesPerSec], by norm_num⟩
  show SpeedResult.okOld (1000000 / 1000000) (1000000 / 1000000) 20 "Unknown" "Unknown" = _
  norm_num

/-- C7 amended: the adapter normalizes both known schemas to megabits per
second and milliseconds, where the newer schema's nested `bandwidth` fields
are in bytes/sec and the older schema's top-level fields are in bits/sec
(ping is milliseconds in both). -/
theorem c7_amended_unit_normalization (db ub pl d u p : ℚ) (pj : Option ℚ)
    (sn sc ss sc2 : Option String) :
    parseSpeedOutput (.json (.newFmt db ub pl pj sn sc)) =
      .okNew (mbpsOfBytesPerSec db) (mbpsOfBytesPerSec ub) pl pj
        (sn.getD "Unknown") (sc.getD "Unknown") ∧
    parseSpeedOutput (.json (.oldFmt d u p ss sc2)) =
      .okOld (mbpsOfBitsPerSec d) (mbpsOfBitsPerSec u) p
        (ss.getD "Unknown") (sc2.getD "Unknown") :=
  ⟨rfl, rfl⟩

/-- C8: when the local test is enabled, a non-loopback local address exists,
file creation and server start raise nothing, and the download client
returns, the adapter returns a success record with `file_size_mb`,
`elapsed_seconds = endT - startT` and `transfer_speed_mbps =
file_size_mb * 8 / elapsed_seconds`; when no non-loopback address exists it
returns the descriptive error record instead of raising. -/
theorem c8_local_transfer (interfaces : List (String × Option String))
    (sizeMb : ℚ) (curlParsed : Option ℚ) (startT endT : ℚ) :
    (∀ ip, get_local_network_ip interfaces = some ip → endT - startT ≠ 0 →
      run_local_transfer_test true interfaces sizeMb none (.output curlParsed) startT endT =
        .okRec { file_size_mb := sizeMb, elapsed_seconds := endT - startT,
                 transfer_speed_mbps := sizeMb * 8 / (endT - startT),
                 transfer_speed_mbps_curl := curlParsed.map fun cs => cs * 8 / 1000000 }) ∧
    (get_local_network_ip interfaces = none →
      run_local_transfer_test true interfaces sizeMb none (.output curlParsed) startT endT =
        .errorRec "Could not find local network IP") := by
  constructor
  · intro ip hip hel
    unfold run_local_transfer_test
    rw [hip]
    simp [hel]
  · intro hnone
    unfold run_local_transfer_test
    rw [hnone]
    rfl

theorem c8_local_transfer_witness :
    run_local_transfer_test true [("eth0", some "192.168.1.5")] 100 none (.output none) 0 8 =
      .okRec { file_size_mb := 100, elapsed_seconds := 8, transfer_speed_mbps := 100,
               transfer_speed_mbps_curl := none } ∧
    run_local_transfer_test true [("lo", some "127.0.0.1")] 100 none (.output none) 0 8 =
      .errorRec "Could not find local network IP" := by
  constructor
  · have h := (c8_local_transfer [("eth0", some "192.168.1.5")] 100 none 0 8).1
      "192.168.1.5" (by decide) (by norm_num)
    rw [h]
    norm_num
  · exact (c8_local_transfer [("lo", some "127.0.0.1")] 100 none 0 8).2 (by decide)

theorem c3_stddev_witness :
    (pingStatsRecord [4] "0%").mdevSq = some 0 ∧
    (pingStatsRecord [] "0%").mdevSq = none ∧
    (pingStatsRecord [5, 7] "0%").mdevSq = some (specSampleVariance [5, 7]) :=
  ⟨(c3_stddev_amended [4] "0%").1 rfl,
   (c3_stddev_amended [] "0%").2.1 rfl,
   (c3_stddev_amended [5, 7] "0%").2.2 (by norm_num)⟩

/-! ## Round-trip of the structured raw-results file -/

theorem jsize_pos (v : JValue) : 1 ≤ jsize v := by
  cases v <;> simp [jsize]

theorem serializeJ_head (v : JValue) : ∃ tail, serializeJ v = headTokOf v :: tail := by
  cases v with
  | null => exact ⟨[], by simp [serializeJ, headTokOf]⟩
  | bool b => exact ⟨[], by simp [serializeJ, headTokOf]⟩
  | num q => exact ⟨[], by simp [serializeJ, headTokOf]⟩
  | str s => exact ⟨[], by simp [serializeJ, headTokOf]⟩
  | arr items => exact ⟨serializeItems items ++ [.rbrack], by simp [serializeJ, headTokOf]⟩
  | obj fields => exact ⟨serializeFields fields ++ [.rbrace], by simp [serializeJ, headTokOf]⟩

theorem headTokOf_not_close (v : JValue) :
    headTokOf v ≠ .rbrack ∧ headTokOf v ≠ .rbrace ∧ headTokOf v ≠ .comma := by
  cases v <;> simp [headTokOf]

theorem serializeItems_cons (v : JValue) (vs : List JValue) :
    serializeItems (v :: vs) =
      serializeJ v ++
        (match vs with
          | [] => []
          | _ :: _ => JTok.comma :: serializeItems vs) := by
  cases vs <;> simp [serializeItems]

theorem serializeFields_cons (k : String) (v : JValue) (fs : List (String × JValue)) :
    serializeFields ((k, v) :: fs) =
      JTok.jstr k :: JTok.colon :: serializeJ v ++
        (match fs with
          | [] => []
          | _ :: _ => JTok.comma :: serializeFields fs) := by
  cases fs <;> simp [serializeFields]

theorem parseJVal_lbrack_red (fuel : ℕ) (ts : List JTok)
    (h : ∀ rest, ts ≠ JTok.rbrack :: rest) :
    parseJVal (fuel + 1) (JTok.lbrack :: ts) =
      match parseJItems fuel ts with
      | some (items, .rbrack :: rest) => some (.arr items, rest)
      | _ => none := by
  cases ts with
  | nil => simp [parseJVal]
  | cons t ts' =>
    cases t with
    | rbrack => exact absurd rfl (h ts')
    | lbrace => simp [parseJVal]
    | rbrace => simp [parseJVal]
    | lbrack => simp [parseJVal]
    | colon => simp [parseJVal]
    | comma => simp [parseJVal]
    | jnull => simp [parseJVal]
    | jbool b => simp [parseJVal]
    | jnum q => simp [parseJVal]
    | jstr s => simp [parseJVal]

theorem parseJVal_lbrace_red (fuel : ℕ) (ts : List JTok)
    (h : ∀ rest, ts ≠ JTok.rbrace :: rest) :
    parseJVal (fuel + 1) (JTok.lbrace :: ts) =
      match parseJFields fuel ts with
      | some (fields, .rbrace :: rest) => some (.obj fields, rest)
      | _ => none := by
  cases ts with
  | nil => simp [parseJVal]
  | cons t ts' =>
    cases t with
    | rbrace => exact absurd rfl (h ts')
    | rbrack => simp [parseJVal]
    | lbrace => simp [parseJVal]
    | lbrack => simp [parseJVal]
    | colon => simp [parseJVal]
    | comma => simp [parseJVal]
    | jnull => simp [parseJVal]
    | jbool b => simp [parseJVal]
    | jnum q => simp [parseJVal]
    | jstr s => simp [parseJVal]

theorem json_roundtrip_aux (fuel : ℕ) :
    (∀ v rest, jsize v ≤ fuel → parseJVal fuel (serializeJ v ++ rest) = some (v, rest)) ∧
    (∀ items c rest, items ≠ [] → c ≠ JTok.comma → jsizeItems items ≤ fuel →
      parseJItems fuel (serializeItems items ++ c :: rest) = some (items, c :: rest)) ∧
    (∀ fields c rest, fields ≠ [] → c ≠ JTok.comma → jsizeFields fields ≤ fuel →
      parseJFields fuel (serializeFields fields ++ c :: rest) = some (fields, c :: rest)) := by
  induction fuel with
  | zero =>
    refine ⟨?_, ?_, ?_⟩
    · intro v rest h
      have := jsize_pos v
      omega
    · intro items c rest hne hc h
      cases items with
      | nil => exact absurd rfl hne
      | cons v vs =>
        have := jsize_pos v
        simp [jsizeItems] at h
    · intro fields c rest hne hc h
      cases fields with
      | nil => exact absurd rfl hne
      | cons f fs =>
        have := jsize_pos f.2
        simp [jsizeFields] at h
  | succ fuel ih =>
    obtain ⟨ihV, ihI, ihF⟩ := ih
    refine ⟨?_, ?_, ?_⟩
    · intro v rest hsize
      cases v with
      | null => simp [serializeJ, parseJVal]
      | bool b => simp [serializeJ, parseJVal]
      | num q => simp [serializeJ, parseJVal]
      | str s => simp [serializeJ, parseJVal]
      | arr items =>
        cases items with
        | nil => simp [serializeJ, serializeItems, parseJVal]
        | cons v0 vs =>
          have hser : serializeJ (.arr (v0 :: vs)) ++ rest =
              JTok.lbrack :: (serializeItems (v0 :: vs) ++ JTok.rbrack :: rest) := by
            simp [serializeJ]
          rw [hser]
          have hhead : ∀ r, serializeItems (v0 :: vs) ++ JTok.rbrack :: rest ≠
              JTok.rbrack :: r := by
            intro r hEq
            obtain ⟨tail0, htail0⟩ := serializeJ_head v0
            rw [serializeItems_cons, htail0] at hEq
            simp at hEq
            exact (headTokOf_not_close v0).1 hEq.1
          rw [parseJVal_lbrack_red fuel _ hhead]
          have hitems := ihI (v0 :: vs) JTok.rbrack rest (by simp) (by simp)
            (by simp [jsize] at hsize; omega)
          rw [hitems]
      | obj fields =>
        cases fields with
        | nil => simp [serializeJ, serializeFields, parseJVal]
        | cons f0 fs =>
          have hser : serializeJ (.obj (f0 :: fs)) ++ rest =
              JTok.lbrace :: (serializeFields (f0 :: fs) ++ JTok.rbrace :: rest) := by
            simp [serializeJ]
          rw [hser]
          have hhead : ∀ r, serializeFields (f0 :: fs) ++ JTok.rbrace :: rest ≠
              JTok.rbrace :: r := by
            intro r hEq
            obtain ⟨k0, v0⟩ := f0
            rw [serializeFields_cons] at hEq
            simp at hEq
          rw [parseJVal_lbrace_red fuel _ hhead]
          have hfields := ihF (f0 :: fs) JTok.rbrace rest (by simp) (by simp)
            (by simp [jsize] at hsize; omega)
          rw [hfields]
    · intro items c rest hne hc hsize
      cases items with
      | nil => exact absurd rfl hne
      | cons v vs =>
        cases vs with
        | nil =>
          have hv := ihV v (c :: rest) (by simp [jsizeItems] at hsize; omega)
          have hser : serializeItems [v] ++ c :: rest = serializeJ v ++ c :: rest := by
            simp [serializeItems]
          rw [hser]
          show (match parseJVal fuel (serializeJ v ++ c :: rest) with
            | none => none
            | some (v', rest') =>
              match rest' with
              | .comma :: rest2 =>
                match parseJItems fuel rest2 with
                | none => none
                | some (vs', rest3) => some (v' :: vs', rest3)
              | _ => some ([v'], rest')) = some ([v], c :: rest)
          rw [hv]
          cases c with
          | comma => exact absurd rfl hc
          | lbrace => rfl
          | rbrace => rfl
          | lbrack => rfl
          | rbrack => rfl
          | colon => rfl
          | jnull => rfl
          | jbool b => rfl
          | jnum q => rfl
          | jstr s => rfl
        | cons v1 vs1 =>
          have hv := ihV v (JTok.comma :: (serializeItems (v1 :: vs1) ++ c :: rest))
            (by simp [jsizeItems] at hsize; omega)
          have hrest := ihI (v1 :: vs1) c rest (by simp) hc
            (by simp [jsizeItems] at hsize ⊢; omega)
          have hser : serializeItems (v :: v1 :: vs1) ++ c :: rest =
              serializeJ v ++ (JTok.comma :: (serializeItems (v1 :: vs1) ++ c :: rest)) := by
            rw [serializeItems_cons]
            simp
          rw [hser]
          show (match parseJVal fuel
              (serializeJ v ++ (JTok.comma :: (serializeItems (v1 :: vs1) ++ c :: rest))) with
            | none => none
            | some (v', rest') =>
              match rest' with
              | .comma :: rest2 =>
                match parseJItems fuel rest2 with
                | none => none
                | some (vs', rest3) => some (v' :: vs', rest3)
              | _ => some ([v'], rest')) = some (v :: v1 :: vs1, c :: rest)
          rw [hv]
          simp [hrest]
    · intro fields c rest hne hc hsize
      cases fields with
      | nil => exact absurd rfl hne
      | cons f fs =>
        obtain ⟨k, v⟩ := f
        cases fs with
        | nil =>
          have hv := ihV v (c :: rest) (by simp [jsizeFields] at hsize; omega)
          have hser : serializeFields [(k, v)] ++ c :: rest =
              JTok.jstr k :: JTok.colon :: (serializeJ v ++ c :: rest) := by
            simp [serializeFields]
          rw [hser]
          show (match parseJVal fuel (serializeJ v ++ c :: rest) with
            | none => none
            | some (v', rest') =>
              match rest' with
              | .comma :: rest2 =>
                match parseJFields fuel rest2 with
                | none => none
                | some (fs', rest3) => some ((k, v') :: fs', rest3)
              | _ => some ([(k, v')], rest')) = some ([(k, v)], c :: rest)
          rw [hv]
          cases c with
          | comma => exact absurd rfl hc
          | lbrace => rfl
          | rbrace => rfl
          | lbrack => rfl
          | rbrack => rfl
          | colon => rfl
          | jnull => rfl
          | jbool b => rfl
          | jnum q => rfl
          | jstr s => rfl
        | cons f1 fs1 =>
          have hv := ihV v (JTok.comma :: (serializeFields (f1 :: fs1) ++ c :: rest))
            (by simp [jsizeFields] at hsize; omega)
          have hrest := ihF (f1 :: fs1) c rest (by simp) hc
            (by simp [jsizeFields] at hsize ⊢; omega)
          have hser : serializeFields ((k, v) :: f1 :: fs1) ++ c :: rest =
              JTok.jstr k :: JTok.colon ::
                (serializeJ v ++ (JTok.comma :: (serializeFields (f1 :: fs1) ++ c :: rest))) := by
            rw [serializeFields_cons]
            simp
          rw [hser]
          show (match parseJVal fuel
              (serializeJ v ++ (JTok.comma :: (serializeFields (f1 :: fs1) ++ c :: rest))) with
            | none => none
            | some (v', rest') =>
              match rest' with
              | .comma :: rest2 =>
                match parseJFields fuel rest2 with
                | none => none
                | some (fs', rest3) => some ((k, v') :: fs', rest3)
              | _ => some ([(k, v')], rest')) = some ((k, v) :: f1 :: fs1, c :: rest)
          rw [hv]
          simp [hrest]

/-- C9: round-trip of persistence — the token stream `json.dump` writes for
`{"system_info": ..., "results": [per-iteration records...], "timestamp":
...}` deserializes back to exactly the in-memory document, error records
included, with nothing left over. -/
theorem c9_raw_results_roundtrip (si : JValue) (results : List JValue) (ts : String) :
    parseJVal (jsize (saveJsonDoc si results ts))
        (serializeJ (saveJsonDoc si results ts)) =
      some (saveJsonDoc si results ts, []) := by
  have h := (json_roundtrip_aux (jsize (saveJsonDoc si results ts))).1
    (saveJsonDoc si results ts) [] le_rfl
  simpa using h

end FieldStone
